import Mathlib

/-!
Verification of the order/user write services of a small e-commerce backend
(NestJS + TypeORM + PostgreSQL).  The embedding models:

* the three relational tables declared by the migration
  (`users`, `orders`, `orderItem`) with UUID primary keys,
  `orders.userId → users.id ON DELETE CASCADE` and
  `orderItem.orderId → orders.id ON DELETE CASCADE`;
* the service-layer operations `createUser`, `deleteUser`, `createOrder`,
  `deleteOrder`, `createOrderItem`, `deleteOrderItem`, `findAll`, `findOne`
  from `src/user/user.ts`, `src/user/user.entity.ts`, `src/user/orderItem.ts`;
* the input validation declared on the DTO classes
  (`@Length(2,100)`, `@IsEmail`, `@ArrayMinSize(1)`).

The store is a pure state: reads return values, writes return a new state.
Server-assigned UUIDs are determinized as a counter rendered to a string,
and row timestamps as a logical clock, both held in the state.
-/

namespace NestShop

/-- Order status enum column: `enum(pending, paid, shipped, cancelled)`
    declared on `Order.status` and in the migration `orders_status_enum`. -/
inductive OrderStatus
  | pending
  | paid
  | shipped
  | cancelled
deriving DecidableEq, Repr

/-- A row of the `users` table: uuid id, name (≤100), unique email,
    `createdAt`/`updatedAt` timestamps (modelled as a logical clock). -/
structure UserRow where
  id : String
  name : String
  email : String
  createdAt : Nat
  updatedAt : Nat
deriving DecidableEq, Repr

/-- A row of the `orders` table: uuid id, `userId` foreign key to `users`,
    status enum, `totalCost numeric(10,2)` (modelled as an integer number of
    cents), timestamps. -/
structure OrderRow where
  id : String
  userId : String
  status : OrderStatus
  totalCost : Int
  createdAt : Nat
  updatedAt : Nat
deriving DecidableEq, Repr

/-- A row of the `orderItem` table: uuid id, `orderId` foreign key to
    `orders`, integer quantity, `unitPrice numeric(10,2)` in cents,
    timestamps. -/
structure OrderItemRow where
  id : String
  orderId : String
  quantity : Int
  unitPrice : Int
  createdAt : Nat
  updatedAt : Nat
deriving DecidableEq, Repr

/-- The relational store: the three tables, plus the sources of the
    server-assigned values (uuid generation determinized as a counter,
    `now()` determinized as a logical clock). -/
structure DB where
  users : List UserRow
  orders : List OrderRow
  orderItems : List OrderItemRow
  nextId : Nat
  now : Nat
deriving DecidableEq, Repr

/-- Modelled from the spec: the error taxonomy of §7.  The code raises
    `NotFoundException` itself and otherwise lets the store driver errors
    (unique violation, foreign-key violation, class-validator rejection at
    the request boundary) propagate; the spec names these classes
    ValidationError, NotFoundError, ConflictError and ForeignKeyError. -/
inductive Err
  | validation
  | notFound
  | conflict
  | foreignKey
deriving DecidableEq, Repr

/-- Server-assigned uuid, determinized as a rendering of the id counter. -/
def freshId (n : Nat) : String := "id-" ++ Nat.repr n

/-- Models `@Length(2, 100)` on `CreateUserInputDTO.name`. -/
def nameLenOk (name : String) : Bool :=
  2 ≤ name.length && name.length ≤ 100

/-- Validation `@IsEmail()` on `CreateUserInputDTO.email`: a syntactically
    valid address.  Modelled from the spec: the check itself lives in the
    external validator library; we require exactly one at-sign separating a
    nonempty local part from a nonempty domain that contains a dot, with no
    spaces anywhere. -/
def isValidEmail (e : String) : Bool :=
  let cs := e.data
  let loc := cs.takeWhile (fun c => c != '@')
  match cs.dropWhile (fun c => c != '@') with
  | '@' :: domain =>
      0 < loc.length && 0 < domain.length && domain.contains '.'
        && !(domain.contains '@') && !(cs.contains ' ')
  | _ => false

/-- Does a user row with this id exist (`users.id` lookup)? -/
def userExists (s : DB) (uid : String) : Bool :=
  s.users.any (fun u => u.id == uid)

/-- Does an order row with this id exist (`orders.id` lookup)? -/
def orderExists (s : DB) (oid : String) : Bool :=
  s.orders.any (fun o => o.id == oid)

/-- Models `orderItemRepo.find()` restricted to one order: the `orderItem` rows
    whose `orderId` column references the given order. -/
def orderItemsOf (s : DB) (oid : String) : List OrderItemRow :=
  s.orderItems.filter (fun it => it.orderId == oid)

/-- The `orders` rows whose `userId` column references the given user. -/
def ordersOf (s : DB) (uid : String) : List OrderRow :=
  s.orders.filter (fun o => o.userId == uid)

/-- Models `UserService.createUser(name, email)`: the request-boundary validation
    declared on `CreateUserInputDTO` (`@Length(2,100)`, `@IsEmail`), then
    `userRepo.create({name, email})` + `userRepo.save(user)`.  The save hits
    the store `unique` constraint on `users.email`; on success the store
    assigns the uuid and the `createdAt`/`updatedAt` timestamps. -/
def createUser (s : DB) (name email : String) :
    Except Err UserRow × DB :=
  if !(nameLenOk name && isValidEmail email) then
    (.error .validation, s)
  else if s.users.any (fun u => u.email == email) then
    (.error .conflict, s)
  else
    let u : UserRow :=
      { id := freshId s.nextId, name := name, email := email
        createdAt := s.now, updatedAt := s.now }
    (.ok u, { s with users := s.users ++ [u]
                     nextId := s.nextId + 1, now := s.now + 1 })

/-- Models `UserService.findAll()`: `userRepo.find(...)`, all user rows. -/
def usersFindAll (s : DB) : List UserRow := s.users

/-- The shape returned by loading an order with `relations: [orderItem]`:
    the order row with its item rows eagerly resolved. -/
structure OrderSnapshot where
  order : OrderRow
  items : List OrderItemRow
deriving DecidableEq, Repr

/-- The shape returned by loading a user with
    `relations: [orders, orders.orderItem]`: the user row with its
    orders, each carrying its items. -/
structure UserSnapshot where
  user : UserRow
  orders : List OrderSnapshot
deriving DecidableEq, Repr

/-- Models `UserService.findOne(id)`: `userRepo.findOne({where: {id}, relations:
    [orders, orders.orderItem]})` — the user with orders and items
    eagerly resolved, or nothing. -/
def findOneUser (s : DB) (uid : String) : Option UserSnapshot :=
  match s.users.find? (fun u => u.id == uid) with
  | none => none
  | some u =>
      some { user := u
             orders := (ordersOf s uid).map
               (fun o => { order := o, items := orderItemsOf s o.id }) }

/-- Models `UserService.deleteUser(id)`: load the user with
    `relations: [orders, orders.orderItem]`; throw `NotFoundException`
    if absent; copy the loaded entity (`{...user}`) as the return value;
    then `userRepo.remove(user)`.  The removal cascades through the
    declared `ON DELETE CASCADE` foreign keys: the user orders go, and
    the items of those orders go with them. -/
def deleteUser (s : DB) (uid : String) :
    Except Err UserSnapshot × DB :=
  match findOneUser s uid with
  | none => (.error .notFound, s)
  | some snap =>
      let gone := ordersOf s uid
      (.ok snap,
       { s with
         users := s.users.filter (fun u => !(u.id == uid))
         orders := s.orders.filter (fun o => !(o.userId == uid))
         orderItems := s.orderItems.filter
           (fun it => !(gone.any (fun o => o.id == it.orderId)))
         now := s.now + 1 })

/-- One element of `CreateOrderInputDTO.orderItems`
    (`CreateOrderOrderItemInputDTO`): quantity and unit price. -/
structure OrderItemInput where
  quantity : Int
  unitPrice : Int
deriving DecidableEq, Repr

/-- The item rows written by the cascade-insert of
    `orderRepo.save(order)`: each input becomes a row with a fresh id,
    the new order id in `orderId`, and store timestamps. -/
def mkItemRows (n : Nat) (oid : String) (t : Nat) :
    List OrderItemInput → List OrderItemRow
  | [] => []
  | i :: rest =>
      { id := freshId n, orderId := oid, quantity := i.quantity
        unitPrice := i.unitPrice, createdAt := t, updatedAt := t }
        :: mkItemRows (n + 1) oid t rest

/-- Models `OrderService.createOrder(userId, status, totalCost, orderItems)`:
    the request-boundary validation declared on `CreateOrderInputDTO`
    (`@ArrayMinSize(1)` on `orderItems`), then `orderRepo.create({user:
    {id: userId}, status, totalCost, orderItem: items})` +
    `orderRepo.save(order)`.  The save is one transactional write: the
    `orders` row and, through the declared `cascade: true` relation, all
    `orderItem` rows; it aborts whole on the `orders.userId → users.id`
    foreign-key check if the user does not exist. -/
def createOrder (s : DB) (userId : String) (status : OrderStatus)
    (totalCost : Int) (orderItems : List OrderItemInput) :
    Except Err (OrderRow × List OrderItemRow) × DB :=
  if orderItems.isEmpty then
    (.error .validation, s)
  else if !(userExists s userId) then
    (.error .foreignKey, s)
  else
    let o : OrderRow :=
      { id := freshId s.nextId, userId := userId, status := status
        totalCost := totalCost, createdAt := s.now, updatedAt := s.now }
    let newItems := mkItemRows (s.nextId + 1) o.id s.now orderItems
    (.ok (o, newItems),
     { s with orders := s.orders ++ [o]
              orderItems := s.orderItems ++ newItems
              nextId := s.nextId + 1 + orderItems.length
              now := s.now + 1 })

/-- Models `OrderService.findAll()`: all orders (the `relations` argument only
    shapes the eager loading of each row user and items). -/
def ordersFindAll (s : DB) : List OrderRow := s.orders

/-- Models `OrderService.deleteOrder(id)`: `orderRepo.findOne({where: {id},
    relations: [orderItem]})`; throw `NotFoundException` if absent; copy
    the loaded entity (`{...order}`) as the return value; then
    `orderRepo.remove(order)`, which cascades to the order items through
    the declared `orderItem.orderId → orders.id ON DELETE CASCADE`. -/
def deleteOrder (s : DB) (oid : String) :
    Except Err OrderSnapshot × DB :=
  match s.orders.find? (fun o => o.id == oid) with
  | none => (.error .notFound, s)
  | some o =>
      (.ok { order := o, items := orderItemsOf s oid },
       { s with
         orders := s.orders.filter (fun x => !(x.id == oid))
         orderItems := s.orderItems.filter (fun it => !(it.orderId == oid))
         now := s.now + 1 })

/-- Models `OrderItemService.createOrderItem(orderId, quantity, unitPrice)`:
    `orderItemRepo.create({order: {id: orderId}, quantity, unitPrice})` +
    `orderItemRepo.save(orderItem)`.  The save fails on the
    `orderItem.orderId → orders.id` foreign-key check if the order does
    not exist; otherwise one item row is written. -/
def createOrderItem (s : DB) (orderId : String)
    (quantity unitPrice : Int) : Except Err OrderItemRow × DB :=
  if !(orderExists s orderId) then
    (.error .foreignKey, s)
  else
    let it : OrderItemRow :=
      { id := freshId s.nextId, orderId := orderId, quantity := quantity
        unitPrice := unitPrice, createdAt := s.now, updatedAt := s.now }
    (.ok it, { s with orderItems := s.orderItems ++ [it]
                      nextId := s.nextId + 1, now := s.now + 1 })

/-- Models `OrderItemService.findAll()`: `orderItemRepo.find()`, all item rows. -/
def orderItemsFindAll (s : DB) : List OrderItemRow := s.orderItems

/-- Models `OrderItemService.deleteOrderItem(id)`: `orderItemRepo.findOneBy({id})`;
    throw `NotFoundException` if absent; copy the row as the return value;
    then `orderItemRepo.remove(orderItem)`. -/
def deleteOrderItem (s : DB) (oid : String) :
    Except Err OrderItemRow × DB :=
  match s.orderItems.find? (fun it => it.id == oid) with
  | none => (.error .notFound, s)
  | some it =>
      (.ok it,
       { s with orderItems := s.orderItems.filter (fun x => !(x.id == oid))
                now := s.now + 1 })

/-- The empty store: no rows in any table. -/
def emptyDB : DB :=
  { users := [], orders := [], orderItems := [], nextId := 0, now := 0 }

/-- A small concrete store: one user (`id-0`), one order (`id-1`) placed by
    that user, two items (`id-2`, `id-3`) on that order. -/
def sampleDB : DB :=
  { users := [{ id := "id-0", name := "Alice", email := "alice@shop.co"
                createdAt := 0, updatedAt := 0 }]
    orders := [{ id := "id-1", userId := "id-0", status := .pending
                 totalCost := 10000, createdAt := 1, updatedAt := 1 }]
    orderItems :=
      [{ id := "id-2", orderId := "id-1", quantity := 1, unitPrice := 1000
         createdAt := 2, updatedAt := 2 },
       { id := "id-3", orderId := "id-1", quantity := 2, unitPrice := 4500
         createdAt := 2, updatedAt := 2 }]
    nextId := 4
    now := 3 }

deriving instance DecidableEq for Except

theorem freshId_ne_empty (n : Nat) : freshId n ≠ "" := by
  intro h
  have hlen := congrArg String.length h
  simp [freshId, String.length_append] at hlen
  exact absurd hlen.1 (by decide)

theorem deleteUser_eq_of_findOne_none (s : DB) (uid : String)
    (h : findOneUser s uid = none) :
    deleteUser s uid = (.error .notFound, s) := by
  unfold deleteUser
  rw [h]

/-- On success, `deleteUser` returns exactly the eagerly loaded snapshot and
    the store with the user row, the user order rows and those orders
    item rows filtered out. -/
theorem deleteUser_ok_state (s : DB) (uid : String) (snap : UserSnapshot)
    (h : (deleteUser s uid).1 = .ok snap) :
    findOneUser s uid = some snap ∧
    (deleteUser s uid).2 =
      { s with
        users := s.users.filter (fun u => !(u.id == uid))
        orders := s.orders.filter (fun o => !(o.userId == uid))
        orderItems := s.orderItems.filter
          (fun it => !((ordersOf s uid).any (fun o => o.id == it.orderId)))
        now := s.now + 1 } := by
  cases hf : findOneUser s uid with
  | none => simp [deleteUser, hf] at h
  | some snap0 =>
      have he : snap0 = snap := by simpa [deleteUser, hf] using h
      subst he
      exact ⟨rfl, by simp [deleteUser, hf]⟩

theorem length_filter_not_add {α : Type} (p : α → Bool) (l : List α) :
    (l.filter (fun a => !(p a))).length + (l.filter p).length = l.length := by
  induction l with
  | nil => rfl
  | cons a t ih => by_cases h : p a <;> simp [List.filter_cons, h] <;> omega

/-- Destructing a successful `findOneUser`: the snapshot user row is in
    the table with the requested id, and its orders carry their items. -/
theorem findOneUser_some_elim (s : DB) (uid : String) (snap : UserSnapshot)
    (h : findOneUser s uid = some snap) :
    snap.user ∈ s.users ∧ snap.user.id = uid ∧
    snap.orders = (ordersOf s uid).map
      (fun o => { order := o, items := orderItemsOf s o.id }) := by
  unfold findOneUser at h
  cases hfind : s.users.find? (fun u => u.id == uid) with
  | none => rw [hfind] at h; cases h
  | some u =>
      rw [hfind] at h
      injection h with h
      subst h
      refine ⟨List.mem_of_find?_eq_some hfind, ?_, rfl⟩
      simpa using List.find?_some hfind

/-- On success, `deleteOrder` returns the loaded order with its items and
    the store with the order row and its item rows filtered out. -/
theorem deleteOrder_ok_state (s : DB) (oid : String) (snap : OrderSnapshot)
    (h : (deleteOrder s oid).1 = .ok snap) :
    s.orders.find? (fun o => o.id == oid) = some snap.order ∧
    snap.items = orderItemsOf s oid ∧
    (deleteOrder s oid).2 =
      { s with
        orders := s.orders.filter (fun x => !(x.id == oid))
        orderItems := s.orderItems.filter (fun it => !(it.orderId == oid))
        now := s.now + 1 } := by
  cases hfind : s.orders.find? (fun o => o.id == oid) with
  | none => simp [deleteOrder, hfind] at h
  | some o =>
      have he : { order := o, items := orderItemsOf s oid : OrderSnapshot }
          = snap := by
        simpa [deleteOrder, hfind] using h
      subst he
      exact ⟨rfl, rfl, by simp [deleteOrder, hfind]⟩

theorem mkItemRows_length (n : Nat) (oid : String) (t : Nat)
    (l : List OrderItemInput) : (mkItemRows n oid t l).length = l.length := by
  induction l generalizing n with
  | nil => rfl
  | cons i rest ih => simp [mkItemRows, ih]

theorem mkItemRows_orderId (n : Nat) (oid : String) (t : Nat)
    (l : List OrderItemInput) :
    ∀ it ∈ mkItemRows n oid t l, it.orderId = oid := by
  induction l generalizing n with
  | nil => intro it h; cases h
  | cons i rest ih =>
      intro it h
      rcases List.mem_cons.mp h with h | h
      · subst h; rfl
      · exact ih (n + 1) it h

end NestShop

namespace NestShop

/-- C6: for every userId, status and totalCost, `createOrder` with an empty
    items list fails with ValidationError (the `@ArrayMinSize(1)` constraint
    on `CreateOrderInputDTO.orderItems`) and leaves the store unchanged, so
    no order row is created. -/
theorem createOrder_empty_items_rejected (s : DB) (uid : String)
    (st : OrderStatus) (tc : Int) :
    createOrder s uid st tc [] = (.error .validation, s) := rfl

/-- C10: a delete aimed at an id that references no existing row of the
    respective table throws NotFoundError and returns the store exactly as
    it was: each of the three delete services looks the entity up before
    removing anything, so a failed delete removes no rows of any table. -/
theorem failed_delete_leaves_store_unchanged (s : DB) (x : String) :
    ((∀ u ∈ s.users, u.id ≠ x) →
        deleteUser s x = (.error .notFound, s)) ∧
    ((∀ o ∈ s.orders, o.id ≠ x) →
        deleteOrder s x = (.error .notFound, s)) ∧
    ((∀ it ∈ s.orderItems, it.id ≠ x) →
        deleteOrderItem s x = (.error .notFound, s)) := by
  refine ⟨?_, ?_, ?_⟩
  · intro h
    have hf : s.users.find? (fun u => u.id == x) = none := by
      rw [List.find?_eq_none]
      intro u hu
      simpa using h u hu
    simp [deleteUser, findOneUser, hf]
  · intro h
    have hf : s.orders.find? (fun o => o.id == x) = none := by
      rw [List.find?_eq_none]
      intro o ho
      simpa using h o ho
    simp [deleteOrder, hf]
  · intro h
    have hf : s.orderItems.find? (fun it => it.id == x) = none := by
      rw [List.find?_eq_none]
      intro it hit
      simpa using h it hit
    simp [deleteOrderItem, hf]

/-- Witness for C10 on the concrete sample store with an unused id. -/
theorem failed_delete_leaves_store_unchanged_witness :
    deleteUser sampleDB "id-99" = (.error .notFound, sampleDB) ∧
    deleteOrder sampleDB "id-99" = (.error .notFound, sampleDB) ∧
    deleteOrderItem sampleDB "id-99" = (.error .notFound, sampleDB) :=
  ⟨(failed_delete_leaves_store_unchanged sampleDB "id-99").1 (by decide),
   (failed_delete_leaves_store_unchanged sampleDB "id-99").2.1 (by decide),
   (failed_delete_leaves_store_unchanged sampleDB "id-99").2.2 (by decide)⟩

/-- C8: after a successful `deleteUser(id)`, a second `deleteUser` on the
    same id fails with NotFoundError — the user row is gone, so the lookup
    misses and the service throws rather than silently succeeding. -/
theorem deleteUser_second_call_not_found (s : DB) (uid : String)
    (snap : UserSnapshot) (h : (deleteUser s uid).1 = .ok snap) :
    (deleteUser (deleteUser s uid).2 uid).1 = .error .notFound := by
  obtain ⟨hf, hs⟩ := deleteUser_ok_state s uid snap h
  have hf2 : findOneUser (deleteUser s uid).2 uid = none := by
    rw [hs]
    unfold findOneUser
    have hnone : (s.users.filter (fun u => !(u.id == uid))).find?
        (fun u => u.id == uid) = none := by
      rw [List.find?_eq_none]
      intro u hu
      have hb := (List.mem_filter.mp hu).2
      simp at hb
      simp [hb]
    simp [hnone]
  rw [deleteUser_eq_of_findOne_none _ _ hf2]

/-- Witness for C8 on the concrete sample store. -/
theorem deleteUser_second_call_not_found_witness :
    (deleteUser (deleteUser sampleDB "id-0").2 "id-0").1
      = .error .notFound :=
  deleteUser_second_call_not_found sampleDB "id-0"
    { user := { id := "id-0", name := "Alice", email := "alice@shop.co"
                createdAt := 0, updatedAt := 0 }
      orders :=
        [{ order := { id := "id-1", userId := "id-0", status := .pending
                      totalCost := 10000, createdAt := 1, updatedAt := 1 }
           items :=
             [{ id := "id-2", orderId := "id-1", quantity := 1
                unitPrice := 1000, createdAt := 2, updatedAt := 2 },
              { id := "id-3", orderId := "id-1", quantity := 2
                unitPrice := 4500, createdAt := 2, updatedAt := 2 }] }] }
    (by decide)

/-- C2: a successful `deleteUser(userId)` cascades through both declared
    `ON DELETE CASCADE` foreign keys in one logical operation: afterwards
    no user row has that id, no order row belongs to that user, and no
    order-item row belongs to any of that user orders; every row not
    transitively owned by the user survives; and the counts drop by exactly
    the user M orders and the items of those orders. -/
theorem deleteUser_cascades_two_levels (s : DB) (uid : String)
    (snap : UserSnapshot) (h : (deleteUser s uid).1 = .ok snap) :
    (∀ u ∈ (deleteUser s uid).2.users, u.id ≠ uid) ∧
    (∀ o ∈ (deleteUser s uid).2.orders, o.userId ≠ uid) ∧
    (∀ it ∈ (deleteUser s uid).2.orderItems,
        ∀ o ∈ ordersOf s uid, it.orderId ≠ o.id) ∧
    (∀ u ∈ s.users, u.id ≠ uid → u ∈ (deleteUser s uid).2.users) ∧
    (∀ o ∈ s.orders, o.userId ≠ uid → o ∈ (deleteUser s uid).2.orders) ∧
    (∀ it ∈ s.orderItems, (∀ o ∈ ordersOf s uid, it.orderId ≠ o.id) →
        it ∈ (deleteUser s uid).2.orderItems) ∧
    (deleteUser s uid).2.orders.length + (ordersOf s uid).length
        = s.orders.length ∧
    (deleteUser s uid).2.orderItems.length
        + (s.orderItems.filter
            (fun it => (ordersOf s uid).any (fun o => o.id == it.orderId))).length
        = s.orderItems.length := by
  obtain ⟨hf, hs⟩ := deleteUser_ok_state s uid snap h
  rw [hs]
  refine ⟨?_, ?_, ?_, ?_, ?_, ?_, ?_, ?_⟩
  · intro u hu
    have hb := (List.mem_filter.mp hu).2
    simpa using hb
  · intro o ho
    have hb := (List.mem_filter.mp ho).2
    simpa using hb
  · intro it hit o ho
    have hb := (List.mem_filter.mp hit).2
    simp at hb
    intro heq
    exact hb o ho heq.symm
  · intro u hu hne
    exact List.mem_filter.mpr ⟨hu, by simp [hne]⟩
  · intro o ho hne
    exact List.mem_filter.mpr ⟨ho, by simp [hne]⟩
  · intro it hit hno
    refine List.mem_filter.mpr ⟨hit, ?_⟩
    simp only [Bool.not_eq_true', List.any_eq_false]
    intro o ho heq
    have h2 : o.id = it.orderId := by simpa using heq
    exact hno o ho h2.symm
  · exact length_filter_not_add (fun o => o.userId == uid) s.orders
  · exact length_filter_not_add
      (fun it => (ordersOf s uid).any (fun o => o.id == it.orderId))
      s.orderItems

/-- Witness for C2 on the concrete sample store: deleting the only user
    removes its 1 order and both of that order items. -/
theorem deleteUser_cascades_two_levels_witness :
    (deleteUser sampleDB "id-0").2.orders.length
        + (ordersOf sampleDB "id-0").length = sampleDB.orders.length ∧
    (deleteUser sampleDB "id-0").2.orderItems.length
        + (sampleDB.orderItems.filter
            (fun it => (ordersOf sampleDB "id-0").any
              (fun o => o.id == it.orderId))).length
        = sampleDB.orderItems.length := by
  have h := deleteUser_cascades_two_levels sampleDB "id-0"
    { user := { id := "id-0", name := "Alice", email := "alice@shop.co"
                createdAt := 0, updatedAt := 0 }
      orders :=
        [{ order := { id := "id-1", userId := "id-0", status := .pending
                      totalCost := 10000, createdAt := 1, updatedAt := 1 }
           items :=
             [{ id := "id-2", orderId := "id-1", quantity := 1
                unitPrice := 1000, createdAt := 2, updatedAt := 2 },
              { id := "id-3", orderId := "id-1", quantity := 2
                unitPrice := 4500, createdAt := 2, updatedAt := 2 }] }] }
    (by decide)
  exact ⟨h.2.2.2.2.2.2.1, h.2.2.2.2.2.2.2⟩

/-- C9: the User object returned by a successful `deleteUser` is the copy
    captured before removal: it equals the entity eagerly loaded with
    `relations: [orders, orders.orderItem]` immediately before the
    delete — same id, fields, orders and items — while the user row itself
    is gone from the store afterwards. -/
theorem deleteUser_snapshot_predeletion (s : DB) (uid : String)
    (snap : UserSnapshot) (h : (deleteUser s uid).1 = .ok snap) :
    findOneUser s uid = some snap ∧
    snap.user ∈ s.users ∧ snap.user.id = uid ∧
    snap.orders = (ordersOf s uid).map
        (fun o => { order := o, items := orderItemsOf s o.id }) ∧
    ∀ u ∈ (deleteUser s uid).2.users, u.id ≠ uid := by
  obtain ⟨hf, hs⟩ := deleteUser_ok_state s uid snap h
  obtain ⟨hmem, hid, horders⟩ := findOneUser_some_elim s uid snap hf
  refine ⟨hf, hmem, hid, horders, ?_⟩
  rw [hs]
  intro u hu
  have hb := (List.mem_filter.mp hu).2
  simpa using hb

/-- Witness for C9 on the concrete sample store. -/
theorem deleteUser_snapshot_predeletion_witness :
    findOneUser sampleDB "id-0" = some
      { user := { id := "id-0", name := "Alice", email := "alice@shop.co"
                  createdAt := 0, updatedAt := 0 }
        orders :=
          [{ order := { id := "id-1", userId := "id-0", status := .pending
                        totalCost := 10000, createdAt := 1, updatedAt := 1 }
             items :=
               [{ id := "id-2", orderId := "id-1", quantity := 1
                  unitPrice := 1000, createdAt := 2, updatedAt := 2 },
                { id := "id-3", orderId := "id-1", quantity := 2
                  unitPrice := 4500, createdAt := 2, updatedAt := 2 }] }] } :=
  (deleteUser_snapshot_predeletion sampleDB "id-0" _ (by decide)).1

/-- C3: `deleteOrder(id)` on an unknown id fails with NotFoundError and
    leaves the store unchanged; on an existing order it returns a
    pre-deletion snapshot that still carries all N of the order items,
    and afterwards `findAll` on order-items returns none with that orderId
    and the order row is gone. -/
theorem deleteOrder_spec (s : DB) (oid : String) :
    ((∀ o ∈ s.orders, o.id ≠ oid) →
        deleteOrder s oid = (.error .notFound, s)) ∧
    (∀ snap, (deleteOrder s oid).1 = .ok snap →
        snap.order ∈ s.orders ∧ snap.order.id = oid ∧
        snap.items = orderItemsOf s oid ∧
        (orderItemsFindAll (deleteOrder s oid).2).filter
            (fun it => it.orderId == oid) = [] ∧
        (∀ o ∈ (deleteOrder s oid).2.orders, o.id ≠ oid)) := by
  constructor
  · intro h
    have hf : s.orders.find? (fun o => o.id == oid) = none := by
      rw [List.find?_eq_none]
      intro o ho
      simpa using h o ho
    simp [deleteOrder, hf]
  · intro snap h
    obtain ⟨hfind, hitems, hs⟩ := deleteOrder_ok_state s oid snap h
    refine ⟨List.mem_of_find?_eq_some hfind, ?_, hitems, ?_, ?_⟩
    · simpa using List.find?_some hfind
    · rw [hs]
      rw [List.filter_eq_nil_iff]
      intro it hit
      have hb := (List.mem_filter.mp hit).2
      simp at hb
      simpa using hb
    · rw [hs]
      intro o ho
      have hb := (List.mem_filter.mp ho).2
      simpa using hb

/-- Witness for C3: unknown id fails and leaves the sample store unchanged;
    deleting the existing order purges its items from `findAll`. -/
theorem deleteOrder_spec_witness :
    deleteOrder sampleDB "id-42" = (.error .notFound, sampleDB) ∧
    (orderItemsFindAll (deleteOrder sampleDB "id-1").2).filter
        (fun it => it.orderId == "id-1") = [] :=
  ⟨(deleteOrder_spec sampleDB "id-42").1 (by decide),
   ((deleteOrder_spec sampleDB "id-1").2
      { order := { id := "id-1", userId := "id-0", status := .pending
                   totalCost := 10000, createdAt := 1, updatedAt := 1 }
        items :=
          [{ id := "id-2", orderId := "id-1", quantity := 1
             unitPrice := 1000, createdAt := 2, updatedAt := 2 },
           { id := "id-3", orderId := "id-1", quantity := 2
             unitPrice := 4500, createdAt := 2, updatedAt := 2 }] }
      (by decide)).2.2.2.1⟩

/-- C1: `createOrder` is one atomic write.  If the userId references no
    existing user, the call (with a nonempty items list, which is what
    reaches the save) fails with the foreign-key error and the store is
    exactly as it was before — no order row and no order-item row.  On
    success, the new store is the old one plus exactly the one order row
    and one item row per requested item, all items referencing the new
    order. -/
theorem createOrder_atomic_write (s : DB) (uid : String) (st : OrderStatus)
    (tc : Int) (items : List OrderItemInput) :
    (items ≠ [] → userExists s uid = false →
        createOrder s uid st tc items = (.error .foreignKey, s)) ∧
    (∀ o its, (createOrder s uid st tc items).1 = .ok (o, its) →
        (createOrder s uid st tc items).2.orders = s.orders ++ [o] ∧
        (createOrder s uid st tc items).2.orderItems = s.orderItems ++ its ∧
        its.length = items.length ∧
        ∀ it ∈ its, it.orderId = o.id) := by
  constructor
  · intro hne hu
    have hni : items.isEmpty = false := by
      cases items with
      | nil => exact absurd rfl hne
      | cons a t => rfl
    simp [createOrder, hni, hu]
  · intro o its h
    by_cases hni : items.isEmpty
    · simp [createOrder, hni] at h
    · by_cases hu : userExists s uid
      · have hh := h
        simp only [createOrder, hni, hu] at hh
        simp at hh
        obtain ⟨ho, hits⟩ := hh
        subst ho
        subst hits
        refine ⟨by simp [createOrder, hni, hu], by simp [createOrder, hni, hu],
                mkItemRows_length _ _ _ _, ?_⟩
        exact mkItemRows_orderId _ _ _ _
      · simp [createOrder, hni, hu] at h

/-- Witness for C1: an unknown user on the empty store fails atomically;
    a known user on the sample store gets the order and its item appended
    in the same write. -/
theorem createOrder_atomic_write_witness :
    createOrder emptyDB "id-7" .pending 10000 [⟨1, 1000⟩]
        = (.error .foreignKey, emptyDB) ∧
    (createOrder sampleDB "id-0" .pending 10000 [⟨1, 1000⟩]).2.orderItems
        = sampleDB.orderItems
            ++ [{ id := "id-5", orderId := "id-4", quantity := 1
                  unitPrice := 1000, createdAt := 3, updatedAt := 3 }] := by
  constructor
  · exact (createOrder_atomic_write emptyDB "id-7" .pending 10000
      [⟨1, 1000⟩]).1 (by decide) (by decide)
  · exact ((createOrder_atomic_write sampleDB "id-0" .pending 10000
      [⟨1, 1000⟩]).2
      { id := "id-4", userId := "id-0", status := .pending
        totalCost := 10000, createdAt := 3, updatedAt := 3 }
      [{ id := "id-5", orderId := "id-4", quantity := 1, unitPrice := 1000
         createdAt := 3, updatedAt := 3 }]
      (by decide)).2.1

/-- C4: `createUser` fails with ValidationError whenever the name length is
    outside [2,100] or the email is not syntactically valid, leaving the
    store unchanged; for a valid pair whose email is not yet in the store
    it succeeds and the returned entity carries a non-empty server-assigned
    id and timestamps with createdAt ≤ updatedAt. -/
theorem createUser_validation_and_success (s : DB) (name email : String) :
    ((nameLenOk name && isValidEmail email) = false →
        createUser s name email = (.error .validation, s)) ∧
    (nameLenOk name = true → isValidEmail email = true →
        (∀ u ∈ s.users, u.email ≠ email) →
        ∃ u, createUser s name email
            = (.ok u, { s with users := s.users ++ [u]
                               nextId := s.nextId + 1, now := s.now + 1 }) ∧
          u.id ≠ "" ∧ u.createdAt ≤ u.updatedAt) := by
  constructor
  · intro hv
    simp [createUser, hv]
  · intro hn he hfresh
    have hdup : s.users.any (fun u => u.email == email) = false := by
      rw [List.any_eq_false]
      intro u hu
      simpa using hfresh u hu
    exact ⟨{ id := freshId s.nextId, name := name, email := email
             createdAt := s.now, updatedAt := s.now },
           by simp [createUser, hn, he, hdup], freshId_ne_empty _, le_refl _⟩

/-- Witness for C4: a one-letter name is rejected; a fresh valid pair is
    accepted on the sample store. -/
theorem createUser_validation_and_success_witness :
    createUser sampleDB "A" "ann@shop.co" = (.error .validation, sampleDB) ∧
    ∃ u, createUser sampleDB "Bob Stone" "bob@shop.co"
        = (.ok u, { sampleDB with users := sampleDB.users ++ [u]
                                  nextId := sampleDB.nextId + 1
                                  now := sampleDB.now + 1 }) ∧
      u.id ≠ "" ∧ u.createdAt ≤ u.updatedAt :=
  ⟨(createUser_validation_and_success sampleDB "A" "ann@shop.co").1
      (by decide),
   (createUser_validation_and_success sampleDB "Bob Stone" "bob@shop.co").2
      (by decide) (by decide) (by decide)⟩

/-- C5: after a successful `createUser` stored a user with some email, a
    second `createUser` with the same email (and a valid name) fails with
    ConflictError — the `unique` constraint on `users.email` — leaving the
    store unchanged; the first user is still present, fields intact. -/
theorem createUser_duplicate_email_conflict (s : DB) (n1 e n2 : String)
    (u1 : UserRow) (s1 : DB)
    (h1 : createUser s n1 e = (.ok u1, s1))
    (hn2 : nameLenOk n2 = true) :
    (createUser s1 n2 e).1 = .error .conflict ∧
    (createUser s1 n2 e).2 = s1 ∧
    u1 ∈ s1.users ∧ u1.email = e := by
  by_cases hv : (nameLenOk n1 && isValidEmail e) = true
  · by_cases hdup : s.users.any (fun u => u.email == e) = true
    · simp [createUser, hv, hdup] at h1
    · simp only [createUser, hv, hdup] at h1
      simp at h1
      obtain ⟨hu1, hs1⟩ := h1
      subst hu1
      subst hs1
      have hv' : nameLenOk n1 = true ∧ isValidEmail e = true := by
        simpa using hv
      have hval2 : (nameLenOk n2 && isValidEmail e) = true := by
        simp [hn2, hv'.2]
      have hdup2 :
          (s.users ++ [({ id := freshId s.nextId, name := n1, email := e
                          createdAt := s.now, updatedAt := s.now }
                        : UserRow)]).any
            (fun u => u.email == e) = true := by
        simp
      refine ⟨?_, ?_, by simp, rfl⟩
      · simp [createUser, hval2, hdup2]
      · simp [createUser, hval2, hdup2]
  · simp [createUser, hv] at h1

/-- Witness for C5: creating two users with the same email on the empty
    store makes the second call fail with ConflictError. -/
theorem createUser_duplicate_email_conflict_witness :
    (createUser
        { users := [{ id := "id-0", name := "Alice May", email := "dup@x.co"
                      createdAt := 0, updatedAt := 0 }]
          orders := [], orderItems := [], nextId := 1, now := 1 }
        "Bob Roe" "dup@x.co").1 = .error .conflict :=
  (createUser_duplicate_email_conflict emptyDB "Alice May" "dup@x.co"
      "Bob Roe"
      { id := "id-0", name := "Alice May", email := "dup@x.co"
        createdAt := 0, updatedAt := 0 }
      _ (by decide) (by decide)).1

/-- C7 counterexample: on a concrete store with no order named `id-77`,
    `createOrderItem` fails with the foreign-key error, not with
    ValidationError as the claim states. -/
theorem createOrderItem_unknown_order_not_validation :
    (createOrderItem sampleDB "id-77" 1 1000).1 ≠ .error .validation ∧
    (createOrderItem sampleDB "id-77" 1 1000).1 = .error .foreignKey :=
  ⟨by decide, by decide⟩

/-- C7 (amended): `createOrderItem(orderId, quantity, unitPrice)` fails
    with ForeignKeyError — the store foreign-key violation, the domain
    error equivalent to NotFoundError for the missing parent — whenever
    orderId references no existing order, leaving the store unchanged; and
    succeeds whenever it does, creating exactly one order-item row attached
    to that order. -/
theorem createOrderItem_fk_spec (s : DB) (oid : String) (q p : Int) :
    (orderExists s oid = false →
        createOrderItem s oid q p = (.error .foreignKey, s)) ∧
    (orderExists s oid = true →
        ∃ it, createOrderItem s oid q p
            = (.ok it, { s with orderItems := s.orderItems ++ [it]
                                nextId := s.nextId + 1, now := s.now + 1 }) ∧
          it.orderId = oid) := by
  constructor
  · intro h
    simp [createOrderItem, h]
  · intro h
    exact ⟨{ id := freshId s.nextId, orderId := oid, quantity := q
             unitPrice := p, createdAt := s.now, updatedAt := s.now },
           by simp [createOrderItem, h], rfl⟩

/-- Witness for C7 (amended): unknown order fails, existing order gets
    exactly one attached item row. -/
theorem createOrderItem_fk_spec_witness :
    createOrderItem sampleDB "id-77" 1 1000
        = (.error .foreignKey, sampleDB) ∧
    ∃ it, createOrderItem sampleDB "id-1" 3 2500
        = (.ok it, { sampleDB with
                     orderItems := sampleDB.orderItems ++ [it]
                     nextId := sampleDB.nextId + 1
                     now := sampleDB.now + 1 }) ∧
      it.orderId = "id-1" :=
  ⟨(createOrderItem_fk_spec sampleDB "id-77" 1 1000).1 (by decide),
   (createOrderItem_fk_spec sampleDB "id-1" 3 2500).2 (by decide)⟩

end NestShop
